import Mathlib

/-!
Shallow embedding of the microfilaria front-end (Next.js client) and proofs
about its claimed behaviour.

The embedding covers:
* the single-shot detection view (`src/app/page.tsx`): file selection,
  the `handleDetect` submit handler split into its request phase and its
  response-resolution phase, the detect button's `disabled` gating, and the
  result rendering;
* the classification/segmentation view (`ClassificationDetectPage`):
  `handleFileSelect`, `handleCategorize`, and the `detectedClasses`
  significance filter;
* the theme store (`ThemeProvider` / `getInitialDark`) together with the
  detection view's local theme flag and class-sync effect;
* the camera capture-and-send streaming client (`RealTimeDetectPage`,
  socket variant): connection/streaming flags, the `processingRef`
  in-flight guard, `frameIdRef`, and the outbound `process_frame` log,
  as a state machine driven by UI/socket events.

JavaScript numbers are modelled as rationals, strings as `String`,
optional JSON fields as `Option`, and the `x || y` string-falsiness
idiom as `jsOrStr`.
-/

namespace Microfilaria

/-- JavaScript `a || b` on an optional string value: `undefined` and the
empty string are falsy and select the fallback. -/
def jsOrStr : Option String → String → String
  | some s, fb => if s = "" then fb else s
  | none, fb => fb

/-- A user-chosen file (the `File` object from the file input). -/
structure UFile where
  name : String
  deriving DecidableEq, Repr

/-- `URL.createObjectURL`: produces a fresh local preview URL for a file. -/
def createObjectURL (f : UFile) : String := "blob:" ++ f.name

/-- Outcome of a `fetch` + `response.json()` round trip: either the whole
chain throws (network/parse failure) or it yields a JSON payload. -/
inductive FetchOutcome (α : Type)
  | network
  | payload (d : α)
  deriving DecidableEq, Repr

/-! ### Detection view (`src/app/page.tsx`) data model -/

/-- `bbox` of one detection. -/
structure BBox where
  x1 : ℚ
  y1 : ℚ
  x2 : ℚ
  y2 : ℚ
  deriving DecidableEq, Repr

/-- One detection entry of the `/api/detect` response. -/
structure Detection where
  id : ℕ
  cls : String
  confidence : ℚ
  bbox : BBox
  deriving DecidableEq, Repr

/-- `detection_stats` of the `/api/detect` response. -/
structure DetectionStats where
  total_count : ℕ
  average_confidence : ℚ
  confidence_threshold : ℚ
  deriving DecidableEq, Repr

/-- `image_info` of the `/api/detect` response. -/
structure ImageInfo where
  width : ℕ
  height : ℕ
  filename : String
  deriving DecidableEq, Repr

/-- The successful `/api/detect` response body (fields the view stores and
renders; the `success` discriminator lives in `DetectPayload`). -/
structure DetectionResponse where
  timestamp : String
  image_info : ImageInfo
  detection_stats : DetectionStats
  detections : List Detection
  annotated_image : String
  deriving DecidableEq, Repr

/-- The raw JSON payload `data` as `handleDetect` inspects it:
`data.success`, an optional `data.error`, and the response fields. -/
structure DetectPayload where
  success : Bool
  errorField : Option String
  resp : DetectionResponse
  deriving DecidableEq, Repr

/-- Component state of the detection view (`Home` in `page.tsx`). -/
structure DetectPage where
  selectedFile : Option UFile
  previewUrl : String
  loading : Bool
  results : Option DetectionResponse
  error : String
  confidence : ℚ
  isDarkMode : Bool
  deriving DecidableEq, Repr

/-- The `useState` initial values of the detection view. -/
def initDetectPage : DetectPage :=
  { selectedFile := none, previewUrl := "", loading := false,
    results := none, error := "", confidence := 1/4, isDarkMode := false }

/-- The multipart request `handleDetect` issues: the file plus the
confidence scalar. -/
structure DetectRequest where
  image : UFile
  confidence : ℚ
  deriving DecidableEq, Repr

/-- `handleFileSelect`: reads `e.target.files?.[0]`; when a file is
present, replaces the selection, regenerates the preview URL, and clears
prior results and error. -/
def handleFileSelect (s : DetectPage) (file : Option UFile) : DetectPage :=
  match file with
  | some f =>
      { s with selectedFile := some f, previewUrl := createObjectURL f,
               results := none, error := "" }
  | none => s

/-- The synchronous request phase of `handleDetect`: fails fast with a
message when no file is selected; otherwise sets the loading flag, clears
the error, and issues the multipart request. -/
def handleDetectStart (s : DetectPage) : DetectPage × Option DetectRequest :=
  match s.selectedFile with
  | none => ({ s with error := "Please select an image first" }, none)
  | some f =>
      ({ s with loading := true, error := "" }, some ⟨f, s.confidence⟩)

/-- The resolution phase of `handleDetect`: the `catch`/`data.success`
branches, with `finally setLoading(false)`. -/
def resolveDetect (s : DetectPage) (o : FetchOutcome DetectPayload) : DetectPage :=
  match o with
  | .network =>
      { s with
        error := "Failed to connect to API. Make sure Flask server is running on port 1000",
        loading := false }
  | .payload d =>
      if d.success then
        { s with results := some d.resp, loading := false }
      else
        { s with error := jsOrStr d.errorField "Detection failed", loading := false }

/-- A click on the detect button: the button carries
`disabled = !selectedFile || loading`, so the handler only runs when a
file is selected and no request is loading. -/
def clickDetect (s : DetectPage) : DetectPage × Option DetectRequest :=
  if s.selectedFile.isNone || s.loading then (s, none)
  else handleDetectStart s

/-- Data shown for one entry of the "Detection Details" list. -/
structure RenderedDetection where
  id : ℕ
  cls : String
  confidencePct : ℚ
  bbox : BBox
  deriving DecidableEq, Repr

/-- Rendering of one detection entry (`results.detections.map (...)`). -/
def renderDetection (d : Detection) : RenderedDetection :=
  { id := d.id, cls := d.cls, confidencePct := d.confidence * 100, bbox := d.bbox }

/-- The "Detection Details" list the view renders from a stored response:
one entry per element of `results.detections`. -/
def detectionDetailsList (r : DetectionResponse) : List RenderedDetection :=
  r.detections.map renderDetection

/-- The "Total Detections" figure the view displays:
`results.detection_stats.total_count`. -/
def displayedTotalCount (r : DetectionResponse) : ℕ :=
  r.detection_stats.total_count

/-! ### Classification/segmentation view data model -/

/-- Per-class statistics of the `/api/categorize` response. -/
structure ClassStatistics where
  class_id : ℕ
  avg_confidence : ℚ
  max_confidence : ℚ
  min_confidence : ℚ
  percentage : ℚ
  pixel_count : ℕ
  deriving DecidableEq, Repr

/-- `segmentation_results` of the `/api/categorize` response; the
statistics table is kept in `Object.entries` order. -/
structure SegmentationResults where
  class_statistics : List (String × ClassStatistics)
  dominant_class : String
  dominant_confidence : ℚ
  dominant_percentage : ℚ
  overall_confidence : ℚ
  deriving DecidableEq, Repr

/-- The successful `/api/categorize` response body. -/
structure CategorizeResponse where
  timestamp : String
  class_legend : List (String × String)
  overlay_image : String
  segmentation_results : SegmentationResults
  deriving DecidableEq, Repr

/-- The raw JSON payload as `handleCategorize` inspects it:
`data.success`, optional `data.error` / `data.message`, and the response
fields (`data.overlay_image` is checked for truthiness, i.e. nonempty). -/
structure CategorizePayload where
  success : Bool
  errorField : Option String
  message : Option String
  resp : CategorizeResponse
  deriving DecidableEq, Repr

/-- Component state of the classification/segmentation view. -/
structure CategorizePage where
  selectedFile : Option UFile
  previewUrl : String
  loading : Bool
  results : Option CategorizeResponse
  error : String
  deriving DecidableEq, Repr

/-- The `useState` initial values of the classification view. -/
def initCategorizePage : CategorizePage :=
  { selectedFile := none, previewUrl := "", loading := false,
    results := none, error := "" }

/-- `handleFileSelect` of the classification view (same shape as the
detection view's). -/
def handleFileSelectCat (s : CategorizePage) (file : Option UFile) : CategorizePage :=
  match file with
  | some f =>
      { s with selectedFile := some f, previewUrl := createObjectURL f,
               results := none, error := "" }
  | none => s

/-- The synchronous request phase of `handleCategorize`: fail fast without
a file, otherwise set the loading flag, clear the error, and post the file. -/
def handleCategorizeStart (s : CategorizePage) : CategorizePage × Option UFile :=
  match s.selectedFile with
  | none => ({ s with error := "Please select an image first" }, none)
  | some f => ({ s with loading := true, error := "" }, some f)

/-- The resolution phase of `handleCategorize`: stores the response when
`data.success && data.overlay_image` holds, otherwise sets
`data.error || data.message || 'Segmentation failed'`; the `finally`
clause clears the loading flag. -/
def resolveCategorize (s : CategorizePage) (o : FetchOutcome CategorizePayload) :
    CategorizePage :=
  match o with
  | .network =>
      { s with
        error := "Failed to connect to API. Make sure the server is running.",
        loading := false }
  | .payload d =>
      if d.success && !(d.resp.overlay_image = "") then
        { s with results := some d.resp, loading := false }
      else
        { s with
          error := jsOrStr d.errorField (jsOrStr d.message "Segmentation failed"),
          loading := false }

/-- A click on the "RUN SEGMENTATION" button, which carries
`disabled = !selectedFile || loading`. -/
def clickCategorize (s : CategorizePage) : CategorizePage × Option UFile :=
  if s.selectedFile.isNone || s.loading then (s, none)
  else handleCategorizeStart s

/-- The significance predicate of the "detected classes" list: not the
background class, average confidence strictly above 0.9, and area
percentage strictly above 0.01. -/
def detectedClassPred (e : String × ClassStatistics) : Bool :=
  if e.1 = "Background" then false
  else decide (e.2.avg_confidence > 9/10) && decide (e.2.percentage > 1/100)

/-- `detectedClasses`: the client-side display filter applied to the
class-statistics table before listing "detected classes". -/
def detectedClasses (classStats : List (String × ClassStatistics)) :
    List (String × ClassStatistics) :=
  classStats.filter detectedClassPred

/-! ### Theme store (`ThemeProvider`) and the detection view's local theme -/

/-- Result of reading the persisted theme key: the read may yield a value
(or nothing), or `localStorage` access may throw. -/
inductive StorageRead
  | ok (v : Option String)
  | failure
  deriving DecidableEq, Repr

/-- Browser environment visible to theme initialization: whether `window`
exists, the persisted `"theme"` key, and the OS color-scheme preference
(`none` models `window.matchMedia` being unavailable). -/
structure ThemeEnv where
  hasWindow : Bool
  stored : StorageRead
  matchMediaDark : Option Bool
  deriving DecidableEq, Repr

/-- `getInitialDark` of `ThemeProvider`: persisted `"dark"`/`"light"` win;
any other outcome (absent key, unreadable storage, other value) falls back
to `prefers-color-scheme`, which itself defaults to `false` when
`matchMedia` is unavailable. -/
def getInitialDark (env : ThemeEnv) : Bool :=
  if !env.hasWindow then false
  else
    match env.stored with
    | .ok (some "dark") => true
    | .ok (some "light") => false
    | .ok _ => env.matchMediaDark.getD false
    | .failure => env.matchMediaDark.getD false

/-- The detection view's initial-theme effect (`page.tsx`): it reads only
`window.matchMedia('(prefers-color-scheme: dark)')` and never consults the
persisted value. -/
def homeInitialDark (env : ThemeEnv) : Bool :=
  if !env.hasWindow then false
  else env.matchMediaDark.getD false

/-- Document-level theme state: presence of the `dark` marker class on the
root element, and the persisted `"theme"` storage slot. -/
structure ThemeDoc where
  darkClass : Bool
  storage : Option String
  deriving DecidableEq, Repr

/-- `ThemeProvider`'s sync effect: toggles the `dark` class on the document
root to match the flag and writes `"dark"`/`"light"` through to storage,
silently ignoring a storage failure (`writeFails`). -/
def themeSyncEffect (isDarkMode : Bool) (writeFails : Bool) (doc : ThemeDoc) : ThemeDoc :=
  { darkClass := isDarkMode,
    storage :=
      if writeFails then doc.storage
      else some (if isDarkMode then "dark" else "light") }

/-- `toggleDarkMode` of the store followed by its sync effect. -/
def storeToggle (flag : Bool) (writeFails : Bool) (doc : ThemeDoc) : Bool × ThemeDoc :=
  let newFlag := !flag
  (newFlag, themeSyncEffect newFlag writeFails doc)

/-- The detection view's dark-class sync effect (`page.tsx`): updates the
root class from its local flag; it performs no storage write. -/
def homeSyncEffect (isDarkMode : Bool) (doc : ThemeDoc) : ThemeDoc :=
  { doc with darkClass := isDarkMode }

/-- The detection view's theme-toggle button followed by its sync effect. -/
def homeToggle (flag : Bool) (doc : ThemeDoc) : Bool × ThemeDoc :=
  let newFlag := !flag
  (newFlag, homeSyncEffect newFlag doc)

/-! ### Camera capture-and-send streaming client (socket variant)

State machine for the `RealTimeDetectPage` variant that captures webcam
frames and emits `process_frame` over the socket. The FPS / processing-time
figures are display-only derivations of the timestamp window and are not
part of the modelled state. -/

/-- The `processType` setting. -/
inductive ProcessType
  | yolo
  | unet
  | combined
  deriving DecidableEq, Repr

/-- One outbound `process_frame` message (frame bytes elided). -/
structure FrameMsg where
  frame_id : ℕ
  ptype : ProcessType
  conf : ℚ
  return_mask : Bool
  deriving DecidableEq, Repr

/-- One inbound `detection_result` event header (the model-specific result
payload is opaque to the state machine). -/
structure RTDetectionResult where
  frame_id : ℕ
  rtype : String
  timestamp : String
  deriving DecidableEq, Repr

/-- Component state of the capture-and-send streaming client, plus the log
of outbound `process_frame` messages (`emitted`, oldest first). -/
structure RTClient where
  isConnected : Bool
  isStreaming : Bool
  processing : Bool
  frameId : ℕ
  lastFrameTime : ℕ
  frameTimes : List ℕ
  latestResult : Option RTDetectionResult
  procType : ProcessType
  conf : ℚ
  emitted : List FrameMsg
  deriving DecidableEq, Repr

/-- Initial state right after mount: disconnected, not streaming, guard
clear, `frameIdRef` at 0, default settings. -/
def initRTClient : RTClient :=
  { isConnected := false, isStreaming := false, processing := false,
    frameId := 0, lastFrameTime := 0, frameTimes := [],
    latestResult := none, procType := .yolo, conf := 1/4, emitted := [] }

/-- `captureAndSendFrame`: bails out when the socket is absent/disconnected
or the `processingRef` guard is set; `ready` folds the video/canvas refs,
2d context, and `readyState === 4` checks; `blobOk` is `toBlob` producing
a blob. On success it sets the guard, stamps the send time, increments
`frameIdRef`, and emits `process_frame` with the new id. -/
def captureAndSendFrame (ready blobOk : Bool) (now : ℕ) (s : RTClient) : RTClient :=
  if !s.isConnected || s.processing then s
  else if !ready then s
  else if !blobOk then s
  else
    { s with
      processing := true,
      lastFrameTime := now,
      frameId := s.frameId + 1,
      emitted := s.emitted ++
        [{ frame_id := s.frameId + 1, ptype := s.procType, conf := s.conf,
           return_mask := s.procType == .unet || s.procType == .combined }] }

/-- The `detection_result` handler: pushes the arrival time into the
sliding window (trimmed to 10), stores the latest result, and clears the
in-flight guard. -/
def onDetectionResult (r : RTDetectionResult) (now : ℕ) (s : RTClient) : RTClient :=
  let times := s.frameTimes ++ [now]
  { s with
    frameTimes := if times.length > 10 then times.tail else times,
    latestResult := some r,
    processing := false }

/-- `stopStreaming`: clears the capture interval and camera (not modelled
beyond the flag), resets the displayed result and rate window, and clears
the in-flight guard. `frameIdRef` is not reset. -/
def stopStreaming (s : RTClient) : RTClient :=
  { s with isStreaming := false, latestResult := none, frameTimes := [],
           processing := false }

/-- Events driving the streaming client. -/
inductive RTEvent
  | connect
  | disconnect
  | cameraStarted
  | captureTick (ready blobOk : Bool) (now : ℕ)
  | detectionResult (r : RTDetectionResult) (now : ℕ)
  | socketError
  | stopStream
  | setType (t : ProcessType)
  | setConf (q : ℚ)
  deriving DecidableEq, Repr

/-- One step of the streaming client. The `disconnect` handler also runs
`stopStreaming`; the socket `error` handler clears the in-flight guard. -/
def step (s : RTClient) : RTEvent → RTClient
  | .connect => { s with isConnected := true }
  | .disconnect => stopStreaming { s with isConnected := false }
  | .cameraStarted => { s with isStreaming := true }
  | .captureTick ready blobOk now => captureAndSendFrame ready blobOk now s
  | .detectionResult r now => onDetectionResult r now s
  | .socketError => { s with processing := false }
  | .stopStream => stopStreaming s
  | .setType t => { s with procType := t }
  | .setConf q => { s with conf := q }

/-- Run the streaming client over a sequence of events. -/
def run (s : RTClient) (tr : List RTEvent) : RTClient :=
  tr.foldl step s

/-- Events that clear the in-flight guard: a `detection_result`, a socket
`error`, stopping the stream, and the disconnect handler (which runs
`stopStreaming`). -/
def clearsGuard : RTEvent → Bool
  | .detectionResult _ _ => true
  | .socketError => true
  | .stopStream => true
  | .disconnect => true
  | _ => false

/-- Events that are an inbound `detection_result` or socket `error`
(the claim's response/error alphabet). -/
def isResponseOrError : RTEvent → Bool
  | .detectionResult _ _ => true
  | .socketError => true
  | _ => false

/-! ## Helper lemmas -/

/-- A `x || 'fallback'` chain with a nonempty fallback is nonempty. -/
theorem jsOrStr_ne_nil (o : Option String) (fb : String) (h : fb ≠ "") :
    jsOrStr o fb ≠ "" := by
  cases o with
  | none => simpa [jsOrStr] using h
  | some s =>
      by_cases hs : s = "" <;> simp [jsOrStr, hs, h]

/-! ## Claims -/

/-- Claim C1: the "detected classes" list of the classification view
contains exactly the class-statistics entries whose name is not
`Background`, whose average confidence exceeds 0.9, and whose area
percentage exceeds 0.01 — and the filter is display-only: its output is a
sublist of the untouched statistics table. -/
theorem detectedClasses_spec (stats : List (String × ClassStatistics)) :
    (∀ e, e ∈ detectedClasses stats ↔
        e ∈ stats ∧ e.1 ≠ "Background" ∧
          e.2.avg_confidence > 9/10 ∧ e.2.percentage > 1/100)
    ∧ (detectedClasses stats).Sublist stats := by
  constructor
  · intro e
    simp only [detectedClasses, List.mem_filter]
    constructor
    · rintro ⟨hmem, hpred⟩
      by_cases hb : e.1 = "Background"
      · simp [detectedClassPred, hb] at hpred
      · simp only [detectedClassPred, hb, if_false, Bool.and_eq_true,
          decide_eq_true_eq] at hpred
        exact ⟨hmem, hb, hpred.1, hpred.2⟩
    · rintro ⟨hmem, hb, h1, h2⟩
      refine ⟨hmem, ?_⟩
      simp only [detectedClassPred, hb, if_false, Bool.and_eq_true,
        decide_eq_true_eq]
      exact ⟨h1, h2⟩
  · exact List.filter_sublist stats

/-- A sample statistics table for instantiating `detectedClasses_spec`. -/
def sampleStats : List (String × ClassStatistics) :=
  [("Background", ⟨0, 999/1000, 1, 99/100, 90, 100000⟩),
   ("WB Wuchereria Bancrofti", ⟨1, 95/100, 99/100, 9/10, 5, 1234⟩)]

/-- Instantiation of `detectedClasses_spec` at a concrete table. -/
theorem detectedClasses_spec_witness :
    (("WB Wuchereria Bancrofti", (⟨1, 95/100, 99/100, 9/10, 5, 1234⟩ : ClassStatistics))
        ∈ detectedClasses sampleStats ↔
      ("WB Wuchereria Bancrofti", (⟨1, 95/100, 99/100, 9/10, 5, 1234⟩ : ClassStatistics))
        ∈ sampleStats ∧ "WB Wuchereria Bancrofti" ≠ "Background" ∧
        (95/100 : ℚ) > 9/10 ∧ (5 : ℚ) > 1/100)
    ∧ (detectedClasses sampleStats).Sublist sampleStats :=
  ⟨(detectedClasses_spec sampleStats).1 _, (detectedClasses_spec sampleStats).2⟩

/-- Claim C3: in each single-shot upload view, clicking the submit button
while the loading flag is set is a no-op — the button is disabled, so no
request is issued and the state is unchanged. -/
theorem submit_noop_while_loading (s : DetectPage) (t : CategorizePage)
    (hs : s.loading = true) (ht : t.loading = true) :
    clickDetect s = (s, none) ∧ clickCategorize t = (t, none) := by
  constructor
  · simp [clickDetect, hs]
  · simp [clickCategorize, ht]

/-- Instantiation of `submit_noop_while_loading` at concrete loading states. -/
theorem submit_noop_while_loading_witness :
    clickDetect { initDetectPage with loading := true } =
      ({ initDetectPage with loading := true }, none)
    ∧ clickCategorize { initCategorizePage with loading := true } =
      ({ initCategorizePage with loading := true }, none) :=
  submit_noop_while_loading _ _ rfl rfl

/-- Claim C5: submitting with no file selected issues no request and sets
the "Please select an image first" message, leaving every other state
field unchanged — in both upload views. -/
theorem submit_no_file_spec (s : DetectPage) (t : CategorizePage)
    (hs : s.selectedFile = none) (ht : t.selectedFile = none) :
    handleDetectStart s = ({ s with error := "Please select an image first" }, none)
    ∧ handleCategorizeStart t =
        ({ t with error := "Please select an image first" }, none) := by
  constructor
  · unfold handleDetectStart
    rw [hs]
  · unfold handleCategorizeStart
    rw [ht]

/-- Instantiation of `submit_no_file_spec` at the initial view states. -/
theorem submit_no_file_spec_witness :
    handleDetectStart initDetectPage =
      ({ initDetectPage with error := "Please select an image first" }, none)
    ∧ handleCategorizeStart initCategorizePage =
      ({ initCategorizePage with error := "Please select an image first" }, none) :=
  submit_no_file_spec _ _ rfl rfl

/-- Claim C6: in both single-shot views, a transport failure and an
application-level failure (`success:false`) each set a nonempty
user-visible error message, leave the previously stored result and the
selected file untouched, and clear the loading flag so the view can
retry. -/
theorem failure_handling_spec (s : DetectPage) (t : CategorizePage)
    (d : DetectPayload) (c : CategorizePayload)
    (hd : d.success = false) (hc : c.success = false) :
    ((resolveDetect s .network).results = s.results
      ∧ (resolveDetect s .network).error ≠ ""
      ∧ (resolveDetect s .network).loading = false
      ∧ (resolveDetect s .network).selectedFile = s.selectedFile)
    ∧ ((resolveDetect s (.payload d)).results = s.results
      ∧ (resolveDetect s (.payload d)).error ≠ ""
      ∧ (resolveDetect s (.payload d)).loading = false
      ∧ (resolveDetect s (.payload d)).selectedFile = s.selectedFile)
    ∧ ((resolveCategorize t .network).results = t.results
      ∧ (resolveCategorize t .network).error ≠ ""
      ∧ (resolveCategorize t .network).loading = false
      ∧ (resolveCategorize t .network).selectedFile = t.selectedFile)
    ∧ ((resolveCategorize t (.payload c)).results = t.results
      ∧ (resolveCategorize t (.payload c)).error ≠ ""
      ∧ (resolveCategorize t (.payload c)).loading = false
      ∧ (resolveCategorize t (.payload c)).selectedFile = t.selectedFile) := by
  refine ⟨⟨rfl, ?_, rfl, rfl⟩, ?_, ⟨rfl, ?_, rfl, rfl⟩, ?_⟩
  · show "Failed to connect to API. Make sure Flask server is running on port 1000" ≠ ""
    decide
  · simp only [resolveDetect, hd, Bool.false_eq_true, if_false]
    exact ⟨by trivial, jsOrStr_ne_nil _ _ (by decide), by trivial, by trivial⟩
  · show "Failed to connect to API. Make sure the server is running." ≠ ""
    decide
  · simp only [resolveCategorize, hc, Bool.false_and, Bool.false_eq_true, if_false]
    exact ⟨by trivial, jsOrStr_ne_nil _ _ (jsOrStr_ne_nil _ _ (by decide)),
      by trivial, by trivial⟩

/-- A concrete failing categorize payload. -/
def failingCategorizePayload : CategorizePayload :=
  { success := false, errorField := none, message := some "bad image",
    resp := { timestamp := "t", class_legend := [], overlay_image := "",
              segmentation_results :=
                { class_statistics := [], dominant_class := "Background",
                  dominant_confidence := 0, dominant_percentage := 0,
                  overall_confidence := 0 } } }

/-- A concrete failing detect payload. -/
def failingDetectPayload : DetectPayload :=
  { success := false, errorField := some "No image provided",
    resp := { timestamp := "t", image_info := ⟨0, 0, ""⟩,
              detection_stats := ⟨0, 0, 1/4⟩, detections := [],
              annotated_image := "" } }

/-- Instantiation of `failure_handling_spec` at concrete failures. -/
theorem failure_handling_spec_witness :
    ((resolveDetect initDetectPage .network).results = initDetectPage.results
      ∧ (resolveDetect initDetectPage .network).error ≠ ""
      ∧ (resolveDetect initDetectPage .network).loading = false
      ∧ (resolveDetect initDetectPage .network).selectedFile = initDetectPage.selectedFile)
    ∧ ((resolveDetect initDetectPage (.payload failingDetectPayload)).results = initDetectPage.results
      ∧ (resolveDetect initDetectPage (.payload failingDetectPayload)).error ≠ ""
      ∧ (resolveDetect initDetectPage (.payload failingDetectPayload)).loading = false
      ∧ (resolveDetect initDetectPage (.payload failingDetectPayload)).selectedFile = initDetectPage.selectedFile)
    ∧ ((resolveCategorize initCategorizePage .network).results = initCategorizePage.results
      ∧ (resolveCategorize initCategorizePage .network).error ≠ ""
      ∧ (resolveCategorize initCategorizePage .network).loading = false
      ∧ (resolveCategorize initCategorizePage .network).selectedFile = initCategorizePage.selectedFile)
    ∧ ((resolveCategorize initCategorizePage (.payload failingCategorizePayload)).results = initCategorizePage.results
      ∧ (resolveCategorize initCategorizePage (.payload failingCategorizePayload)).error ≠ ""
      ∧ (resolveCategorize initCategorizePage (.payload failingCategorizePayload)).loading = false
      ∧ (resolveCategorize initCategorizePage (.payload failingCategorizePayload)).selectedFile = initCategorizePage.selectedFile) :=
  failure_handling_spec initDetectPage initCategorizePage
    failingDetectPayload failingCategorizePayload rfl rfl

/-- Claim C7: selecting a new file — from any prior state, including one
with an in-flight request — replaces the selection, regenerates the
preview URL, and clears the prior result and error; all other fields
(loading flag included) are untouched, in both upload views. -/
theorem select_file_spec (s : DetectPage) (t : CategorizePage) (f : UFile) :
    handleFileSelect s (some f) =
      { s with selectedFile := some f, previewUrl := createObjectURL f,
               results := none, error := "" }
    ∧ handleFileSelectCat t (some f) =
      { t with selectedFile := some f, previewUrl := createObjectURL f,
               results := none, error := "" } :=
  ⟨rfl, rfl⟩

/-- An environment with `"dark"` persisted but a light OS preference. -/
def darkStoredLightOS : ThemeEnv :=
  { hasWindow := true, stored := .ok (some "dark"), matchMediaDark := some false }

/-- Claim C4 counterexample: with `"dark"` persisted and readable but a
light OS preference, the theme store initializes dark, yet the detection
view — which exposes its own theme toggle — initializes its flag from the
OS preference alone, so its initial flag does not equal the persisted
value. -/
theorem theme_init_claim_cex :
    getInitialDark darkStoredLightOS = true
    ∧ homeInitialDark darkStoredLightOS = false := by
  constructor <;> rfl

/-- Claim C4 (amended): the theme store's initializer returns the persisted
value when present and readable (`"dark"` maps to dark, `"light"` to
light) and falls back to the OS color-scheme preference when the value is
absent or storage access fails; the detection view's own theme flag,
however, is initialized solely from the OS preference and ignores the
persisted value. -/
theorem theme_init_spec (env : ThemeEnv) (hw : env.hasWindow = true) :
    (env.stored = .ok (some "dark") → getInitialDark env = true)
    ∧ (env.stored = .ok (some "light") → getInitialDark env = false)
    ∧ (env.stored = .ok none → getInitialDark env = env.matchMediaDark.getD false)
    ∧ (env.stored = .failure → getInitialDark env = env.matchMediaDark.getD false)
    ∧ homeInitialDark env = env.matchMediaDark.getD false := by
  refine ⟨?_, ?_, ?_, ?_, ?_⟩
  · intro h; simp [getInitialDark, hw, h]
  · intro h; simp [getInitialDark, hw, h]
  · intro h; simp [getInitialDark, hw, h]
  · intro h; simp [getInitialDark, hw, h]
  · simp [homeInitialDark, hw]

/-- Instantiation of `theme_init_spec` at a concrete environment. -/
theorem theme_init_spec_witness :
    darkStoredLightOS.hasWindow = true
    ∧ darkStoredLightOS.stored = .ok (some "dark")
    ∧ getInitialDark darkStoredLightOS = true :=
  ⟨rfl, rfl, (theme_init_spec darkStoredLightOS rfl).1 rfl⟩

/-- Claim C9 counterexample: the detection view's theme toggle (its
dark-class sync effect) flips the flag and the root class but performs no
storage write, so this theme mutation does not write through to
persistent storage. -/
theorem theme_toggle_claim_cex :
    (homeToggle false ⟨false, some "light"⟩).1 = true
    ∧ (homeToggle false ⟨false, some "light"⟩).2.darkClass = true
    ∧ (homeToggle false ⟨false, some "light"⟩).2.storage = some "light" :=
  ⟨rfl, rfl, rfl⟩

/-- Claim C9 (amended): a toggle of the theme store flips the flag,
synchronously sets the root `dark` marker class to match the new flag
(so exactly one of the two modes is applied: dark iff the flag), and
writes `"dark"`/`"light"` through to storage unless the write fails, in
which case the failure is silently ignored; the detection view's local
toggle, by contrast, updates only the root class and never persists. -/
theorem theme_toggle_spec (flag fail : Bool) (doc : ThemeDoc) :
    (storeToggle flag fail doc).1 = !flag
    ∧ (storeToggle flag fail doc).2.darkClass = !flag
    ∧ (storeToggle flag fail doc).2.storage =
        (if fail then doc.storage else some (if !flag then "dark" else "light"))
    ∧ (homeToggle flag doc).2.darkClass = !flag
    ∧ (homeToggle flag doc).2.storage = doc.storage := by
  refine ⟨rfl, rfl, ?_, rfl, rfl⟩
  by_cases h : fail <;> simp [storeToggle, themeSyncEffect, h]

/-- A response whose `total_count` disagrees with its detections array. -/
def mismatchedDetectResponse : DetectionResponse :=
  { timestamp := "t", image_info := ⟨640, 480, "sample.jpg"⟩,
    detection_stats :=
      { total_count := 3, average_confidence := 1/2, confidence_threshold := 1/4 },
    detections := [], annotated_image := "data:image/jpeg;base64,AAAA" }

/-- Claim C8 counterexample: a successful detect response with
`detection_stats.total_count = 3` but an empty detections array is stored
as-is, displays the figure 3, and renders 0 detail entries — not 3. -/
theorem detect_render_claim_cex :
    (resolveDetect initDetectPage
        (.payload { success := true, errorField := none,
                    resp := mismatchedDetectResponse })).results
      = some mismatchedDetectResponse
    ∧ displayedTotalCount mismatchedDetectResponse = 3
    ∧ (detectionDetailsList mismatchedDetectResponse).length = 0 :=
  ⟨rfl, rfl, rfl⟩

/-- Claim C8 (amended): the detection view renders exactly one detail
entry per element of the response's detections array and displays
`detection_stats.total_count` as the total; so for every successful
response whose `total_count` agrees with the length of its detections
array, both the rendered-entry count and the displayed figure equal N. -/
theorem detect_render_count (r : DetectionResponse) (N : ℕ)
    (h1 : r.detection_stats.total_count = N)
    (h2 : r.detections.length = N) :
    (detectionDetailsList r).length = r.detections.length
    ∧ (detectionDetailsList r).length = N
    ∧ displayedTotalCount r = N := by
  refine ⟨List.length_map _ _, ?_, h1⟩
  rw [detectionDetailsList, List.length_map]
  exact h2

/-- A well-formed one-detection response. -/
def consistentDetectResponse : DetectionResponse :=
  { timestamp := "t", image_info := ⟨640, 480, "sample.jpg"⟩,
    detection_stats :=
      { total_count := 1, average_confidence := 92/100, confidence_threshold := 1/4 },
    detections := [⟨1, "WB Wuchereria Bancrofti", 92/100, ⟨10, 20, 110, 220⟩⟩],
    annotated_image := "data:image/jpeg;base64,AAAA" }

/-- Instantiation of `detect_render_count` at a consistent response. -/
theorem detect_render_count_witness :
    (detectionDetailsList consistentDetectResponse).length
        = consistentDetectResponse.detections.length
    ∧ (detectionDetailsList consistentDetectResponse).length = 1
    ∧ displayedTotalCount consistentDetectResponse = 1 :=
  detect_render_count consistentDetectResponse 1 rfl rfl

/-- Appending a singleton changes a list. -/
theorem append_singleton_ne {α : Type} (l : List α) (x : α) : l ++ [x] ≠ l := by
  intro h
  simpa using congrArg List.length h

/-- A trace in which one frame is captured and sent and the stream is then
stopped, with no `detection_result` or `error` event anywhere. -/
def sendThenStopTrace : List RTEvent :=
  [.connect, .cameraStarted, .captureTick true true 0, .stopStream]

/-- Claim C2 counterexample: after `sendThenStopTrace` a frame has been
sent (one `process_frame` was emitted) and neither a `detection_result`
nor an `error` event ever arrived, yet the guard is clear, because
`stopStreaming` also resets `processingRef` — refuting "the guard is set
exactly when a frame has been sent and neither a detection_result nor an
error event has since arrived". -/
theorem rt_guard_claim_cex :
    (run initRTClient sendThenStopTrace).emitted.length = 1
    ∧ sendThenStopTrace.all (fun e => !isResponseOrError e) = true
    ∧ (run initRTClient sendThenStopTrace).processing = false :=
  ⟨rfl, rfl, rfl⟩

/-- Claim C2 (amended): invoking the frame capture while the processing
guard is set changes nothing and emits nothing; a step emits a new
`process_frame` only from a state with the guard clear and leaves the
guard set; and after any step the guard is set exactly when that step
sent a frame, or it was already set and the step was none of the events
that clear it — a `detection_result`, an `error`, a stream stop, or the
disconnect handler (which runs `stopStreaming`). -/
theorem rt_guard_spec (s u : RTClient) (e : RTEvent)
    (ready blobOk : Bool) (now : ℕ) (h : s.processing = true) :
    captureAndSendFrame ready blobOk now s = s
    ∧ ((step u e).emitted ≠ u.emitted →
        u.processing = false ∧ (step u e).processing = true)
    ∧ ((step u e).processing = true ↔
        ((step u e).emitted ≠ u.emitted
          ∨ (u.processing = true ∧ clearsGuard e = false))) := by
  refine ⟨?_, ?_, ?_⟩
  · simp [captureAndSendFrame, h]
  · cases e with
    | captureTick r b n =>
        simp only [step]
        unfold captureAndSendFrame
        by_cases h1 : !u.isConnected || u.processing
        · simp [h1]
        · have hp : u.processing = false := by
            cases hvp : u.processing
            · rfl
            · exact absurd (by simp [hvp]) h1
          by_cases h2 : r
          · by_cases h3 : b
            · intro _
              exact ⟨hp, by simp [h1, h2, h3]⟩
            · simp [h1, h2, h3]
          · simp [h1, h2]
    | connect => intro hne; exact absurd rfl hne
    | disconnect => intro hne; exact absurd rfl hne
    | cameraStarted => intro hne; exact absurd rfl hne
    | detectionResult r n => intro hne; exact absurd rfl hne
    | socketError => intro hne; exact absurd rfl hne
    | stopStream => intro hne; exact absurd rfl hne
    | setType t => intro hne; exact absurd rfl hne
    | setConf q => intro hne; exact absurd rfl hne
  · cases e with
    | captureTick r b n =>
        simp only [step]
        unfold captureAndSendFrame
        by_cases h1 : !u.isConnected || u.processing
        · simp [h1, clearsGuard]
        · by_cases h2 : r
          · by_cases h3 : b
            · simp [h1, h2, h3, clearsGuard, append_singleton_ne]
            · simp [h1, h2, h3, clearsGuard]
          · simp [h1, h2, clearsGuard]
    | connect => simp [step, clearsGuard]
    | disconnect => simp [step, clearsGuard, stopStreaming]
    | cameraStarted => simp [step, clearsGuard]
    | detectionResult r n => simp [step, clearsGuard, onDetectionResult]
    | socketError => simp [step, clearsGuard]
    | stopStream => simp [step, clearsGuard, stopStreaming]
    | setType t => simp [step, clearsGuard]
    | setConf q => simp [step, clearsGuard]

/-- A connected, streaming state with the in-flight guard set. -/
def rtBusyState : RTClient :=
  { isConnected := true, isStreaming := true, processing := true,
    frameId := 1, lastFrameTime := 0, frameTimes := [],
    latestResult := none, procType := .yolo, conf := 1/4,
    emitted := [⟨1, .yolo, 1/4, false⟩] }

/-- Instantiation of `rt_guard_spec`: a capture invoked while the guard is
set is a no-op, and the guard dynamics at a concrete step. -/
theorem rt_guard_spec_witness :
    captureAndSendFrame true true 5 rtBusyState = rtBusyState
    ∧ ((step initRTClient .connect).emitted ≠ initRTClient.emitted →
        initRTClient.processing = false ∧ (step initRTClient .connect).processing = true)
    ∧ ((step initRTClient .connect).processing = true ↔
        ((step initRTClient .connect).emitted ≠ initRTClient.emitted
          ∨ (initRTClient.processing = true ∧ clearsGuard .connect = false))) :=
  rt_guard_spec rtBusyState initRTClient .connect true true 5 rfl

/-- The frame-counter invariant: the logged `process_frame` ids are
exactly `1, 2, ..., frameId`. -/
def FrameLogInv (s : RTClient) : Prop :=
  s.emitted.map FrameMsg.frame_id = List.range' 1 s.frameId

theorem frameLogInv_step (s : RTClient) (e : RTEvent) (h : FrameLogInv s) :
    FrameLogInv (step s e) := by
  cases e with
  | captureTick r b n =>
      show FrameLogInv (captureAndSendFrame r b n s)
      unfold captureAndSendFrame
      by_cases h1 : !s.isConnected || s.processing
      · simpa [h1] using h
      · by_cases h2 : r
        · by_cases h3 : b
          · simp only [h1, h2, h3, Bool.not_true, Bool.false_eq_true, if_false,
              if_true, Bool.not_false]
            unfold FrameLogInv at h ⊢
            simp only [List.map_append, List.map_cons, List.map_nil, h]
            have : 1 + s.frameId = s.frameId + 1 := Nat.add_comm _ _
            rw [List.range'_1_concat, this]
          · simpa [h1, h2, h3] using h
        · simpa [h1, h2] using h
  | connect => exact h
  | disconnect => exact h
  | cameraStarted => exact h
  | detectionResult r n => exact h
  | socketError => exact h
  | stopStream => exact h
  | setType t => exact h
  | setConf q => exact h

theorem frameLogInv_run (tr : List RTEvent) (s : RTClient) (h : FrameLogInv s) :
    FrameLogInv (run s tr) := by
  induction tr generalizing s with
  | nil => exact h
  | cons e tr ih => exact ih _ (frameLogInv_step s e h)

/-- Claim C10: over any event trace from mount — stops, restarts and
disconnects included — the `frame_id`s of the emitted `process_frame`
messages are exactly `1, ..., frameId`, hence strictly increasing and
all distinct, and the frame counter equals the number of frames ever
emitted (one increment per emitted frame, never reset). -/
theorem frame_ids_monotone (tr : List RTEvent) :
    ((run initRTClient tr).emitted.map FrameMsg.frame_id
        = List.range' 1 (run initRTClient tr).frameId)
    ∧ List.Pairwise (· < ·) ((run initRTClient tr).emitted.map FrameMsg.frame_id)
    ∧ (run initRTClient tr).emitted.length = (run initRTClient tr).frameId
    ∧ ((run initRTClient tr).emitted.map FrameMsg.frame_id).Nodup := by
  have h : FrameLogInv (run initRTClient tr) := frameLogInv_run tr initRTClient rfl
  unfold FrameLogInv at h
  refine ⟨h, ?_, ?_, ?_⟩
  · rw [h]; exact List.pairwise_lt_range' 1 _
  · have hlen := congrArg List.length h
    simpa using hlen
  · rw [h]; exact List.nodup_range' 1 _

end Microfilaria
